import Mathlib

set_option linter.unusedVariables false

/-!
Shallow embedding of `backend/open_webui/apps/webui/routers/files.py`.

Each HTTP handler becomes a pure function over an explicit registry state
(the list of persisted `FileModel` records) together with an environment
record that fixes the outcomes of the external collaborator calls made
during the request (`Storage.*`, `Files.*` success flags, `process_file`).
Handlers return the HTTP outcome (`Except HTTPException payload`, where a
normal return is HTTP 200) and, where a claim needs it, the trace of
collaborator calls and the resulting registry state.
-/

/-- Status code constant `fastapi.status.HTTP_400_BAD_REQUEST`. -/
def HTTP_400_BAD_REQUEST : Nat := 400

/-- Status code constant `fastapi.status.HTTP_404_NOT_FOUND`. -/
def HTTP_404_NOT_FOUND : Nat := 404

/-- Status code constant `fastapi.status.HTTP_500_INTERNAL_SERVER_ERROR`. -/
def HTTP_500_INTERNAL_SERVER_ERROR : Nat := 500

/-- An HTTP error response raised by a handler (`fastapi.HTTPException`). -/
structure HTTPException where
  status_code : Nat
  detail : String
deriving Repr, DecidableEq

/-- A generic Python exception as observed by the handlers: its `str()`
rendering and an optional `detail` attribute (present on HTTP-style
exceptions, absent on plain exceptions). -/
structure PyExc where
  msg : String
  detail : Option String := none
deriving Repr, DecidableEq

/-- Modelled from the spec: `open_webui.constants.ERROR_MESSAGES.DEFAULT` is
not under src/; it renders an error string that incorporates its argument.
The claims depend only on status codes, never on these detail strings. -/
def ERROR_MESSAGES.DEFAULT (err : String) : String :=
  "Something went wrong :/\n" ++ err

/-- Modelled from the spec: `ERROR_MESSAGES.NOT_FOUND` (not under src/), the
fixed not-found detail string. -/
def ERROR_MESSAGES.NOT_FOUND : String := "We could not find what you are looking for :/"

/-- Python `str()` of an `HTTPException` (starlette renders it as
"status_code: detail"); used when the outer catch-all of `upload_file`
re-renders a caught HTTPException through `ERROR_MESSAGES.DEFAULT`. -/
def HTTPException.pyStr (e : HTTPException) : String :=
  toString e.status_code ++ ": " ++ e.detail

/-- The authenticated caller produced by `get_verified_user` / `get_admin_user`. -/
structure User where
  id : String
  role : String
deriving Repr, DecidableEq

/-- Python dict lookup `d.get(k, dflt)` over a string-keyed association list. -/
def dictGet (d : List (String × String)) (k : String) (dflt : String) : String :=
  match d.lookup k with
  | some v => v
  | none => dflt

/-- Modelled from the spec: the Metadata Registry record schema
(`open_webui.apps.webui.models.files.FileModel` is not under src/). Per the
spec's data model the record carries identifier, owning user, original
(sanitized) filename, storage path, metadata, and derived data/content.
The persisted record has NO error field: the `error` annotation exists only
on the response model (spec 4.1: "response-only annotation"). -/
structure FileModel where
  id : String
  user_id : String
  filename : String
  path : String
  meta : List (String × String)
  data : List (String × String)
  content : List (String × String)
deriving Repr, DecidableEq

/-- Modelled from the spec: `FileModelResponse`, the upload response model:
the record's fields plus an optional response-only `error` annotation. -/
structure FileModelResponse where
  id : String
  user_id : String
  filename : String
  path : String
  meta : List (String × String)
  data : List (String × String)
  content : List (String × String)
  error : Option String
deriving Repr, DecidableEq

/-- Builds the response payload `FileModelResponse(**file_item.model_dump(), error=...)`. -/
def FileModel.toResponse (f : FileModel) (err : Option String) : FileModelResponse :=
  { id := f.id, user_id := f.user_id, filename := f.filename, path := f.path,
    meta := f.meta, data := f.data, content := f.content, error := err }

/-- The `FileForm` payload handed to `Files.insert_new_file` (files.py line 92). -/
structure FileForm where
  id : String
  filename : String
  path : String
  meta : List (String × String)
deriving Repr, DecidableEq

/-- The Metadata Registry state: the list of persisted records. -/
abbrev RegistryDB := List FileModel

/-- Modelled from the spec: `Files.get_file_by_id` — registry lookup by identifier. -/
def Files.get_file_by_id (db : RegistryDB) (id : String) : Option FileModel :=
  db.find? (fun f => f.id == id)

/-- Modelled from the spec (4.1 step 4): the record created by
`Files.insert_new_file` from the form plus the owning user; derived
data/content are empty until the Content Processor runs. -/
def Files.mk_record (user_id : String) (form : FileForm) : FileModel :=
  { id := form.id, user_id := user_id, filename := form.filename, path := form.path,
    meta := form.meta, data := [], content := [] }

/-- Modelled from the spec: `Files.insert_new_file` persists the new record and
returns it. -/
def Files.insert_new_file (db : RegistryDB) (user_id : String) (form : FileForm) :
    RegistryDB × FileModel :=
  let f := Files.mk_record user_id form
  (db ++ [f], f)

/-- Modelled from the spec: `Files.get_files` returns all records. -/
def Files.get_files (db : RegistryDB) : List FileModel := db

/-- Modelled from the spec: `Files.get_files_by_user_id` returns the records
owned by the given user. -/
def Files.get_files_by_user_id (db : RegistryDB) (user_id : String) : List FileModel :=
  db.filter (fun f => f.user_id == user_id)

/-- Modelled from the spec: the registry-side effect of a successful
`Files.delete_file_by_id` — the record is removed. -/
def Files.delete_record (db : RegistryDB) (id : String) : RegistryDB :=
  db.filter (fun f => f.id != id)

/-- Modelled from the spec: a successful Content Processor run "extracts/derives
content ... updating the metadata record" — it rewrites the record's derived
`data` fields (supplied by the environment oracle); identifier, owner,
filename and storage path are immutable per the spec's data-model invariants. -/
def processApply (derived : List (String × String)) (f : FileModel) : FileModel :=
  { f with data := derived }

/-- Embeds `os.path.basename` (POSIX): everything after the last slash
(`p[p.rfind(chr(47))+1:]`), computed as the longest slash-free suffix. -/
def os.path.basename (p : String) : String :=
  String.mk ((p.data.reverse.takeWhile (fun c => c != '/')).reverse)

/-- HTTP status of a handler outcome: a normal return is 200. -/
def respStatus {α : Type} : Except HTTPException α → Nat
  | .ok _ => 200
  | .error e => e.status_code

deriving instance DecidableEq for Except

/-- One collaborator call made by `upload_file`, in the order performed. -/
inductive UploadCall where
  | storageUpload (key : String)
  | registryInsert (user_id : String) (form : FileForm)
  | processInvoke (file_id : String)
  | registryGet (file_id : String)
deriving Repr, DecidableEq

/-- Environment oracle for one `upload_file` request: the fresh uuid and the
outcomes of the external collaborator calls made during the request. -/
structure UploadEnv where
  freshId : String
  storage_upload : Except PyExc (String × String)
  insert_exc : Option PyExc
  process_result : Except PyExc Unit
  derivedData : List (String × String)
deriving Repr, DecidableEq

/-- The request: the declared filename and content type of the multipart upload. -/
structure UploadReq where
  filename : String
  content_type : String
deriving Repr, DecidableEq

/-- Outcome of one `upload_file` request: HTTP response, registry state after,
and the trace of collaborator calls. -/
structure UploadResult where
  resp : Except HTTPException FileModelResponse
  db : RegistryDB
  calls : List UploadCall
deriving Repr, DecidableEq

/-- The `file_form_data` dict built by `upload_file` (files.py lines 92-101):
the fresh identifier, the sanitized name, the storage-returned path, and the
metadata dict (display name, declared content type, byte size). -/
def uploadFormData (env : UploadEnv) (file : UploadReq) (contents file_path : String) :
    FileForm :=
  { id := env.freshId, filename := os.path.basename file.filename, path := file_path,
    meta := [("name", os.path.basename file.filename),
             ("content_type", file.content_type),
             ("size", toString contents.length)] }

/-- Embeds `upload_file` (files.py lines 41-174). Control-flow note: the outer
`try` (line 55) ends in `except Exception as e` (line 155), which also catches
the handler's own `HTTPException(500)`s raised at lines 85 and 112 and
re-raises them as `HTTPException(400, DEFAULT(e))` (line 171). -/
def upload_file (env : UploadEnv) (db : RegistryDB) (file : UploadReq) (user : User) :
    UploadResult :=
  let unsanitized_filename := file.filename
  let filename0 := os.path.basename unsanitized_filename
  -- replace filename with uuid (lines 64-67)
  let id := env.freshId
  let name := filename0
  let filename := id ++ "_" ++ name
  match env.storage_upload with
  | .error _storage_error =>
      -- line 85 raises HTTPException(500, DEFAULT("Storage upload failed"));
      -- line 155 catches it and line 171 re-raises 400 with DEFAULT(e)
      let e : HTTPException :=
        ⟨HTTP_500_INTERNAL_SERVER_ERROR, ERROR_MESSAGES.DEFAULT "Storage upload failed"⟩
      { resp := .error ⟨HTTP_400_BAD_REQUEST, ERROR_MESSAGES.DEFAULT e.pyStr⟩,
        db := db, calls := [.storageUpload filename] }
  | .ok (contents, file_path) =>
      let file_form_data := uploadFormData env file contents file_path
      match env.insert_exc with
      | some _db_error =>
          -- line 112 raises HTTPException(500, DEFAULT("Database record creation failed"));
          -- caught at line 155 and re-raised as 400 (line 171)
          let e : HTTPException :=
            ⟨HTTP_500_INTERNAL_SERVER_ERROR,
             ERROR_MESSAGES.DEFAULT "Database record creation failed"⟩
          { resp := .error ⟨HTTP_400_BAD_REQUEST, ERROR_MESSAGES.DEFAULT e.pyStr⟩,
            db := db, calls := [.storageUpload filename, .registryInsert user.id file_form_data] }
      | none =>
          let ins := Files.insert_new_file db user.id file_form_data
          let db1 := ins.1
          let file_item := ins.2
          match env.process_result with
          | .ok _ =>
              -- processing succeeded: the processor mutated the record; re-fetch it (line 123)
              let db2 := db1.map (fun f => if f.id == id then processApply env.derivedData f else f)
              match Files.get_file_by_id db2 id with
              | some fi =>
                  { resp := .ok (fi.toResponse none), db := db2,
                    calls := [.storageUpload filename, .registryInsert user.id file_form_data,
                              .processInvoke id, .registryGet id] }
              | none =>
                  -- unreachable in this sequential model (the record was just inserted);
                  -- in Python a None here raises AttributeError at line 124, which ends
                  -- in the catch-all 400 at line 171
                  { resp := .error ⟨HTTP_400_BAD_REQUEST, ERROR_MESSAGES.DEFAULT "AttributeError"⟩,
                    db := db2,
                    calls := [.storageUpload filename, .registryInsert user.id file_form_data,
                              .processInvoke id, .registryGet id] }
          | .error process_error =>
              -- lines 126-143: swallow the processing error, annotate the response
              let error_message :=
                match process_error.detail with
                | some d => d
                | none => process_error.msg
              { resp := .ok (file_item.toResponse (some error_message)), db := db1,
                calls := [.storageUpload filename, .registryInsert user.id file_form_data,
                          .processInvoke id] }

/-- Embeds `list_files` (files.py lines 182-188). -/
def list_files (db : RegistryDB) (user : User) : List FileModel :=
  if user.role == "admin" then
    Files.get_files db
  else
    Files.get_files_by_user_id db user.id

/-- One collaborator call made by `delete_all_files`, in the order performed. -/
inductive BulkCall where
  | registryDeleteAll
  | storageDeleteAll
deriving Repr, DecidableEq

/-- Environment oracle for one `delete_all_files` request. -/
structure DeleteAllEnv where
  registry_result : Bool
  storage_delete_all : Except PyExc Unit
deriving Repr, DecidableEq

/-- Outcome of one `delete_all_files` request. -/
structure DeleteAllResult where
  resp : Except HTTPException String
  db : RegistryDB
  calls : List BulkCall
deriving Repr, DecidableEq

/-- Embeds `delete_all_files` (files.py lines 196-214); the route is reached only
through the `get_admin_user` dependency, so `user` is an admin. On a truthy
registry result the registry is cleared (spec-modelled side effect); the blob
bulk-delete is attempted only then, and an exception from it yields 400. -/
def delete_all_files (env : DeleteAllEnv) (db : RegistryDB) (user : User) : DeleteAllResult :=
  let result := env.registry_result
  let db1 := if result then [] else db
  if result then
    match env.storage_delete_all with
    | .error _e =>
        { resp := .error ⟨HTTP_400_BAD_REQUEST, ERROR_MESSAGES.DEFAULT "Error deleting files"⟩,
          db := db1, calls := [.registryDeleteAll, .storageDeleteAll] }
    | .ok _ =>
        { resp := .ok "All files deleted successfully", db := db1,
          calls := [.registryDeleteAll, .storageDeleteAll] }
  else
    { resp := .error ⟨HTTP_400_BAD_REQUEST, ERROR_MESSAGES.DEFAULT "Error deleting files"⟩,
      db := db1, calls := [.registryDeleteAll] }

/-- Embeds `get_file_by_id` (files.py lines 222-232). -/
def get_file_by_id (db : RegistryDB) (id : String) (user : User) :
    Except HTTPException FileModel :=
  match Files.get_file_by_id db id with
  | some file =>
      if file.user_id == user.id || user.role == "admin" then
        .ok file
      else
        .error ⟨HTTP_404_NOT_FOUND, ERROR_MESSAGES.NOT_FOUND⟩
  | none => .error ⟨HTTP_404_NOT_FOUND, ERROR_MESSAGES.NOT_FOUND⟩

/-- Embeds `get_file_data_content_by_id` (files.py lines 240-250); the payload is
the value of the returned dict's "content" key. -/
def get_file_data_content_by_id (db : RegistryDB) (id : String) (user : User) :
    Except HTTPException String :=
  match Files.get_file_by_id db id with
  | some file =>
      if file.user_id == user.id || user.role == "admin" then
        .ok (dictGet file.data "content" "")
      else
        .error ⟨HTTP_404_NOT_FOUND, ERROR_MESSAGES.NOT_FOUND⟩
  | none => .error ⟨HTTP_404_NOT_FOUND, ERROR_MESSAGES.NOT_FOUND⟩

/-- The body of `POST /{id}/data/content/update`. -/
structure ContentForm where
  content : String
deriving Repr, DecidableEq

/-- Environment oracle for one `update_file_data_content_by_id` request. -/
structure UpdateEnv where
  process_result : Except PyExc Unit
  derivedData : List (String × String)
deriving Repr, DecidableEq

/-- One collaborator call made by `update_file_data_content_by_id`. -/
inductive UpdateCall where
  | processInvoke (file_id : String) (content : String)
deriving Repr, DecidableEq

/-- Outcome of one `update_file_data_content_by_id` request. -/
structure UpdateResult where
  resp : Except HTTPException String
  db : RegistryDB
  calls : List UpdateCall
deriving Repr, DecidableEq

/-- Embeds `update_file_data_content_by_id` (files.py lines 262-281): the
processor is re-invoked with the caller-supplied content; on success the record
is re-fetched; on failure the exception is logged and swallowed (lines 272-274)
and the handler still returns the pre-update record's content. -/
def update_file_data_content_by_id (env : UpdateEnv) (db : RegistryDB) (id : String)
    (form_data : ContentForm) (user : User) : UpdateResult :=
  match Files.get_file_by_id db id with
  | some file =>
      if file.user_id == user.id || user.role == "admin" then
        match env.process_result with
        | .ok _ =>
            let db1 := db.map (fun f => if f.id == id then processApply env.derivedData f else f)
            match Files.get_file_by_id db1 id with
            | some file1 =>
                { resp := .ok (dictGet file1.data "content" ""), db := db1,
                  calls := [.processInvoke id form_data.content] }
            | none =>
                -- unreachable in this sequential model; in Python a None here
                -- raises AttributeError at line 276, escaping as a 500
                { resp := .error ⟨HTTP_500_INTERNAL_SERVER_ERROR, "Internal Server Error"⟩,
                  db := db1, calls := [.processInvoke id form_data.content] }
        | .error _e =>
            { resp := .ok (dictGet file.data "content" ""), db := db,
              calls := [.processInvoke id form_data.content] }
      else
        { resp := .error ⟨HTTP_404_NOT_FOUND, ERROR_MESSAGES.NOT_FOUND⟩, db := db, calls := [] }
  | none =>
      { resp := .error ⟨HTTP_404_NOT_FOUND, ERROR_MESSAGES.NOT_FOUND⟩, db := db, calls := [] }

/-- A streamed handler response body. -/
inductive ContentResp where
  | fileResponse (path : String) (headers : List (String × String))
  | plainFileResponse (path : String)
  | streamingResponse (body : String) (media_type : String) (headers : List (String × String))
deriving Repr, DecidableEq

/-- Environment oracle for the content-download handlers: the outcome of
`Storage.get_file(file.path)` and, for the returned path, `Path(...).is_file()`. -/
structure ContentEnv where
  get_file : Except PyExc String
  is_file : Bool
deriving Repr, DecidableEq

/-- Embeds the first `get_file_content_by_id` (route `GET /{id}/content`,
files.py lines 289-320). Control-flow note: the `except Exception` at line 309
also catches the handler's own `HTTPException(404)` raised at line 305 for the
not-a-file case, re-raising it as a 400 (line 312). -/
def get_file_content_by_id (env : ContentEnv) (db : RegistryDB) (id : String) (user : User) :
    Except HTTPException ContentResp :=
  match Files.get_file_by_id db id with
  | some file =>
      if file.user_id == user.id || user.role == "admin" then
        match env.get_file with
        | .ok file_path =>
            if env.is_file then
              .ok (.fileResponse file_path
                [("Content-Disposition",
                  "attachment; filename=\"" ++ dictGet file.meta "name" file.filename ++ "\"")])
            else
              -- line 305 raises 404; line 309 catches it; line 312 raises 400
              .error ⟨HTTP_400_BAD_REQUEST, ERROR_MESSAGES.DEFAULT "Error getting file content"⟩
        | .error _e =>
            .error ⟨HTTP_400_BAD_REQUEST, ERROR_MESSAGES.DEFAULT "Error getting file content"⟩
      else
        .error ⟨HTTP_404_NOT_FOUND, ERROR_MESSAGES.NOT_FOUND⟩
  | none => .error ⟨HTTP_404_NOT_FOUND, ERROR_MESSAGES.NOT_FOUND⟩

/-- Embeds `get_html_file_content_by_id` (route `GET /{id}/content/html`,
files.py lines 323-351): same shape as `/content` but the `FileResponse`
carries no extra headers; the inner 404 is likewise swallowed into a 400. -/
def get_html_file_content_by_id (env : ContentEnv) (db : RegistryDB) (id : String) (user : User) :
    Except HTTPException ContentResp :=
  match Files.get_file_by_id db id with
  | some file =>
      if file.user_id == user.id || user.role == "admin" then
        match env.get_file with
        | .ok file_path =>
            if env.is_file then
              .ok (.plainFileResponse file_path)
            else
              .error ⟨HTTP_400_BAD_REQUEST, ERROR_MESSAGES.DEFAULT "Error getting file content"⟩
        | .error _e =>
            .error ⟨HTTP_400_BAD_REQUEST, ERROR_MESSAGES.DEFAULT "Error getting file content"⟩
      else
        .error ⟨HTTP_404_NOT_FOUND, ERROR_MESSAGES.NOT_FOUND⟩
  | none => .error ⟨HTTP_404_NOT_FOUND, ERROR_MESSAGES.NOT_FOUND⟩

/-- Embeds the second `get_file_content_by_id` (route `GET /{id}/content/{file_name}`,
files.py lines 354-394). Here there is no try/except: the 404 for a missing
local file is raised directly, an exception from `Storage.get_file` escapes the
handler (modelled as a 500), and an empty stored path falls back to streaming
the record's inline content as text/plain. -/
def get_file_content_by_id_name (env : ContentEnv) (db : RegistryDB) (id : String) (user : User) :
    Except HTTPException ContentResp :=
  match Files.get_file_by_id db id with
  | some file =>
      if file.user_id == user.id || user.role == "admin" then
        if file.path != "" then
          match env.get_file with
          | .ok file_path =>
              if env.is_file then
                .ok (.fileResponse file_path
                  [("Content-Disposition",
                    "attachment; filename=\"" ++ dictGet file.meta "name" file.filename ++ "\"")])
              else
                .error ⟨HTTP_404_NOT_FOUND, ERROR_MESSAGES.NOT_FOUND⟩
          | .error _e =>
              .error ⟨HTTP_500_INTERNAL_SERVER_ERROR, "Internal Server Error"⟩
        else
          .ok (.streamingResponse (dictGet file.content "content" "") "text/plain"
            [("Content-Disposition", "attachment; filename=" ++ file.filename)])
      else
        .error ⟨HTTP_404_NOT_FOUND, ERROR_MESSAGES.NOT_FOUND⟩
  | none => .error ⟨HTTP_404_NOT_FOUND, ERROR_MESSAGES.NOT_FOUND⟩

/-- One collaborator call made by `delete_file_by_id`, in the order performed. -/
inductive DeleteCall where
  | registryDelete (id : String)
  | storageDelete (filename : String)
deriving Repr, DecidableEq

/-- Environment oracle for one `delete_file_by_id` request. -/
structure DeleteEnv where
  registry_result : Bool
  storage_delete : Except PyExc Unit
deriving Repr, DecidableEq

/-- Outcome of one `delete_file_by_id` request. -/
structure DeleteResult where
  resp : Except HTTPException String
  db : RegistryDB
  calls : List DeleteCall
deriving Repr, DecidableEq

/-- Embeds `delete_file_by_id` (files.py lines 402-427): registry delete first;
on a truthy result the blob delete is attempted with the record's `filename`
field (line 409); a blob exception yields 400 although the record is already
gone; a falsy registry result yields 400 with no blob call. -/
def delete_file_by_id (env : DeleteEnv) (db : RegistryDB) (id : String) (user : User) :
    DeleteResult :=
  match Files.get_file_by_id db id with
  | some file =>
      if file.user_id == user.id || user.role == "admin" then
        let result := env.registry_result
        let db1 := if result then Files.delete_record db id else db
        if result then
          match env.storage_delete with
          | .error _e =>
              { resp := .error ⟨HTTP_400_BAD_REQUEST, ERROR_MESSAGES.DEFAULT "Error deleting files"⟩,
                db := db1, calls := [.registryDelete id, .storageDelete file.filename] }
          | .ok _ =>
              { resp := .ok "File deleted successfully", db := db1,
                calls := [.registryDelete id, .storageDelete file.filename] }
        else
          { resp := .error ⟨HTTP_400_BAD_REQUEST, ERROR_MESSAGES.DEFAULT "Error deleting file"⟩,
            db := db1, calls := [.registryDelete id] }
      else
        { resp := .error ⟨HTTP_404_NOT_FOUND, ERROR_MESSAGES.NOT_FOUND⟩, db := db, calls := [] }
  | none =>
      { resp := .error ⟨HTTP_404_NOT_FOUND, ERROR_MESSAGES.NOT_FOUND⟩, db := db, calls := [] }

/-! Shared helper lemmas. -/

/-- Auxiliary: appending a common suffix is injective on strings. -/
lemma string_append_right_inj (a b n : String) (h : a ++ n = b ++ n) : a = b := by
  cases a with
  | mk da =>
    cases b with
    | mk db =>
      cases n with
      | mk dn =>
        have h' : da ++ dn = db ++ dn := by
          have h2 := congrArg String.data h
          simpa using h2
        exact congrArg String.mk (List.append_cancel_right h')

/-- Auxiliary: the storage key `id ++ "_" ++ n` determines `id` for a fixed `n`. -/
lemma storage_key_inj (a b n : String) (h : a ++ "_" ++ n = b ++ "_" ++ n) : a = b := by
  have h1 : a ++ "_" = b ++ "_" := string_append_right_inj _ _ _ h
  exact string_append_right_inj _ _ _ h1

/-- Auxiliary: a string never equals itself prefixed with `id ++ "_"`. -/
lemma ne_key_of_self (idp n : String) : n ≠ idp ++ "_" ++ n := by
  intro h
  have hl := congrArg String.length h
  rw [String.length_append, String.length_append] at hl
  have h1 : ("_" : String).length = 1 := rfl
  rw [h1] at hl
  omega

/-- Auxiliary: mapping a function that fixes every element of a list is the identity. -/
lemma list_map_eq_self {α : Type} (l : List α) (f : α → α) (h : ∀ x ∈ l, f x = x) :
    l.map f = l := by
  induction l with
  | nil => rfl
  | cons x xs ih =>
    simp only [List.map_cons]
    rw [h x (by simp), ih (fun y hy => h y (by simp [hy]))]

/-- Auxiliary: `find?` skips a prefix in which it finds nothing. -/
lemma find?_append_of_none {α : Type} (p : α → Bool) (l1 l2 : List α)
    (h : l1.find? p = none) : (l1 ++ l2).find? p = l2.find? p := by
  induction l1 with
  | nil => rfl
  | cons x xs ih =>
    cases hp : p x with
    | true =>
      rw [List.find?_cons_of_pos _ hp] at h
      exact absurd h (by simp)
    | false =>
      rw [List.find?_cons_of_neg _ (by simp [hp])] at h
      rw [List.cons_append, List.find?_cons_of_neg _ (by simp [hp])]
      exact ih h

/-- Auxiliary: looking up a fresh identifier right after appending its record. -/
lemma get_file_append_single (db : RegistryDB) (rec0 : FileModel) (id : String)
    (h : Files.get_file_by_id db id = none) (hid : rec0.id = id) :
    Files.get_file_by_id (db ++ [rec0]) id = some rec0 := by
  unfold Files.get_file_by_id at h ⊢
  rw [find?_append_of_none _ _ _ h]
  simp [List.find?, hid]

/-- Auxiliary: the guarded processor map fixes a registry that does not contain
the identifier. -/
lemma map_guard_eq_of_not_found (db : RegistryDB) (id : String) (g : FileModel → FileModel)
    (h : Files.get_file_by_id db id = none) :
    db.map (fun f => if f.id == id then g f else f) = db := by
  apply list_map_eq_self
  intro x hx
  have hall := List.find?_eq_none.mp h x hx
  simp only [Bool.not_eq_true] at hall
  simp [hall]

/-- Auxiliary: after `Files.delete_record db id` the identifier resolves to nothing. -/
lemma get_file_delete_none (db : RegistryDB) (id : String) :
    Files.get_file_by_id (Files.delete_record db id) id = none := by
  unfold Files.get_file_by_id Files.delete_record
  rw [List.find?_eq_none]
  intro x hx
  rw [List.mem_filter] at hx
  have h2 := hx.2
  simp only [bne_iff_ne, ne_eq] at h2
  simp [h2]

/-- The ad-hoc guard repeated at every identifier-addressed endpoint:
`file and (file.user_id == user.id or user.role == "admin")`. -/
def authorized (db : RegistryDB) (id : String) (user : User) : Bool :=
  match Files.get_file_by_id db id with
  | some file => file.user_id == user.id || user.role == "admin"
  | none => false

/-! Claim C3. -/

/-- C3: for every identifier-addressed endpoint (get-by-id, data-content,
content-update, content, content/html, content/file_name, delete-by-id) and
every verified caller who is neither the record's owner nor an admin — and
likewise for every identifier with no record (`authorized db id user = false`
covers exactly these two cases) — the handler returns exactly the 404
NOT_FOUND error; in particular it never returns a 403, so an unauthorized
request is indistinguishable from a request for a nonexistent record. -/
theorem id_endpoints_unauthorized_or_missing_404 (db : RegistryDB) (id : String) (user : User)
    (cenv henv nenv : ContentEnv) (uenv : UpdateEnv) (denv : DeleteEnv) (form : ContentForm)
    (h : authorized db id user = false) :
    get_file_by_id db id user = .error ⟨HTTP_404_NOT_FOUND, ERROR_MESSAGES.NOT_FOUND⟩ ∧
    get_file_data_content_by_id db id user = .error ⟨HTTP_404_NOT_FOUND, ERROR_MESSAGES.NOT_FOUND⟩ ∧
    (update_file_data_content_by_id uenv db id form user).resp =
      .error ⟨HTTP_404_NOT_FOUND, ERROR_MESSAGES.NOT_FOUND⟩ ∧
    get_file_content_by_id cenv db id user = .error ⟨HTTP_404_NOT_FOUND, ERROR_MESSAGES.NOT_FOUND⟩ ∧
    get_html_file_content_by_id henv db id user =
      .error ⟨HTTP_404_NOT_FOUND, ERROR_MESSAGES.NOT_FOUND⟩ ∧
    get_file_content_by_id_name nenv db id user =
      .error ⟨HTTP_404_NOT_FOUND, ERROR_MESSAGES.NOT_FOUND⟩ ∧
    (delete_file_by_id denv db id user).resp =
      .error ⟨HTTP_404_NOT_FOUND, ERROR_MESSAGES.NOT_FOUND⟩ := by
  unfold authorized at h
  cases hf : Files.get_file_by_id db id with
  | none =>
    refine ⟨?_, ?_, ?_, ?_, ?_, ?_, ?_⟩ <;>
      simp [get_file_by_id, get_file_data_content_by_id, update_file_data_content_by_id,
            get_file_content_by_id, get_html_file_content_by_id, get_file_content_by_id_name,
            delete_file_by_id, hf]
  | some f =>
    rw [hf] at h
    have h1 : ¬f.user_id = user.id := by
      intro hc
      simp [hc] at h
    have h2 : ¬user.role = "admin" := by
      intro hc
      simp [hc] at h
    refine ⟨?_, ?_, ?_, ?_, ?_, ?_, ?_⟩ <;>
      simp [get_file_by_id, get_file_data_content_by_id, update_file_data_content_by_id,
            get_file_content_by_id, get_html_file_content_by_id, get_file_content_by_id_name,
            delete_file_by_id, hf, h1, h2]

/-- Concrete record for the C3 witness: owned by user alice. -/
def fileW3 : FileModel :=
  { id := "f3", user_id := "alice", filename := "notes.txt", path := "/data/uploads/f3_notes.txt",
    meta := [("name", "notes.txt")], data := [("content", "hello")], content := [] }

/-- Concrete caller for the C3 witness: verified, non-owner, non-admin. -/
def userW3 : User := { id := "bob", role := "user" }

/-- Concrete content-handler environment for the C3 witness. -/
def cenvW3 : ContentEnv := { get_file := .ok "/data/uploads/f3_notes.txt", is_file := true }

/-- Witness for C3 at a concrete registry, caller and environments. -/
theorem id_endpoints_unauthorized_or_missing_404_witness :
    get_file_by_id [fileW3] "f3" userW3 = .error ⟨HTTP_404_NOT_FOUND, ERROR_MESSAGES.NOT_FOUND⟩ ∧
    get_file_data_content_by_id [fileW3] "f3" userW3 =
      .error ⟨HTTP_404_NOT_FOUND, ERROR_MESSAGES.NOT_FOUND⟩ ∧
    (update_file_data_content_by_id ⟨.ok (), []⟩ [fileW3] "f3" ⟨"new"⟩ userW3).resp =
      .error ⟨HTTP_404_NOT_FOUND, ERROR_MESSAGES.NOT_FOUND⟩ ∧
    get_file_content_by_id cenvW3 [fileW3] "f3" userW3 =
      .error ⟨HTTP_404_NOT_FOUND, ERROR_MESSAGES.NOT_FOUND⟩ ∧
    get_html_file_content_by_id cenvW3 [fileW3] "f3" userW3 =
      .error ⟨HTTP_404_NOT_FOUND, ERROR_MESSAGES.NOT_FOUND⟩ ∧
    get_file_content_by_id_name cenvW3 [fileW3] "f3" userW3 =
      .error ⟨HTTP_404_NOT_FOUND, ERROR_MESSAGES.NOT_FOUND⟩ ∧
    (delete_file_by_id ⟨true, .ok ()⟩ [fileW3] "f3" userW3).resp =
      .error ⟨HTTP_404_NOT_FOUND, ERROR_MESSAGES.NOT_FOUND⟩ :=
  id_endpoints_unauthorized_or_missing_404 [fileW3] "f3" userW3 cenvW3 cenvW3 cenvW3
    ⟨.ok (), []⟩ ⟨true, .ok ()⟩ ⟨"new"⟩ (by decide)

/-! Claim C8. -/

/-- C8: a caller with the admin role receives all records in the registry and
every other verified caller receives exactly the records whose owning-user
identifier equals the caller's identifier; no pagination or filtering beyond
the ownership restriction is applied (first conjunct gives the exact result
list, second characterises membership). -/
theorem list_files_spec (db : RegistryDB) (user : User) :
    list_files db user =
      (if user.role == "admin" then db else db.filter (fun f => f.user_id == user.id)) ∧
    (∀ f, f ∈ list_files db user ↔ (f ∈ db ∧ (user.role = "admin" ∨ f.user_id = user.id))) := by
  by_cases h : user.role = "admin"
  · constructor
    · simp [list_files, Files.get_files, h]
    · intro f
      simp [list_files, Files.get_files, h]
  · constructor
    · simp [list_files, Files.get_files_by_user_id, h]
    · intro f
      simp [list_files, Files.get_files_by_user_id, h, List.mem_filter]

/-! Claim C5. -/

/-- C5: on every upload the key passed to Blob Storage (the first collaborator
call) is the fresh identifier, an underscore, and the basename-sanitized
declared filename; when the blob write and the insert succeed, the stored
record's `filename` is the declared filename with all directory components
stripped; distinct fresh identifiers yield distinct storage keys for the same
declared filename; and `../../etc/passwd` sanitizes to `passwd`. -/
theorem upload_key_and_sanitization (env env2 : UploadEnv) (db : RegistryDB)
    (file : UploadReq) (user : User)
    (hne : env.freshId ≠ env2.freshId) :
    (upload_file env db file user).calls.head? =
      some (.storageUpload (env.freshId ++ "_" ++ os.path.basename file.filename)) ∧
    (∀ contents file_path, env.storage_upload = .ok (contents, file_path) →
        env.insert_exc = none →
        Files.get_file_by_id db env.freshId = none →
        ∃ r, Files.get_file_by_id (upload_file env db file user).db env.freshId = some r ∧
          r.filename = os.path.basename file.filename) ∧
    env.freshId ++ "_" ++ os.path.basename file.filename ≠
      env2.freshId ++ "_" ++ os.path.basename file.filename ∧
    os.path.basename "../../etc/passwd" = "passwd" := by
  refine ⟨?_, ?_, ?_, by rfl⟩
  · simp only [upload_file]
    repeat' split
    all_goals rfl
  · intro contents file_path hs hi hfresh
    cases hp : env.process_result with
    | error e =>
      refine ⟨Files.mk_record user.id (uploadFormData env file contents file_path), ?_, rfl⟩
      simp only [upload_file, hs, hi, hp, Files.insert_new_file]
      exact get_file_append_single db _ env.freshId hfresh rfl
    | ok u =>
      have hmap : db.map (fun f => if f.id == env.freshId
          then processApply env.derivedData f else f) = db :=
        map_guard_eq_of_not_found db env.freshId _ hfresh
      have hget : Files.get_file_by_id
          ((db ++ [Files.mk_record user.id (uploadFormData env file contents file_path)]).map
            (fun f => if f.id == env.freshId then processApply env.derivedData f else f))
          env.freshId =
          some (processApply env.derivedData
            (Files.mk_record user.id (uploadFormData env file contents file_path))) := by
        rw [List.map_append, hmap]
        simp only [List.map_cons, List.map_nil]
        rw [if_pos (show ((Files.mk_record user.id
          (uploadFormData env file contents file_path)).id == env.freshId) = true by
            simp [Files.mk_record, uploadFormData])]
        exact get_file_append_single db _ env.freshId hfresh rfl
      refine ⟨processApply env.derivedData
        (Files.mk_record user.id (uploadFormData env file contents file_path)), ?_, rfl⟩
      simp only [upload_file, hs, hi, hp, Files.insert_new_file]
      rw [hget]
      exact hget
  · intro h
    exact hne (storage_key_inj _ _ _ h)

/-- Concrete upload environment for the C5 witness. -/
def uploadEnvW5 : UploadEnv :=
  { freshId := "11111111-aaaa", storage_upload := .ok ("bytes", "/app/backend/data/uploads/k"),
    insert_exc := none, process_result := .ok (), derivedData := [("content", "text")] }

/-- Second concrete upload environment for the C5 witness, with a distinct
fresh identifier. -/
def uploadEnvW5b : UploadEnv :=
  { freshId := "22222222-bbbb", storage_upload := .ok ("bytes", "/app/backend/data/uploads/k"),
    insert_exc := none, process_result := .ok (), derivedData := [] }

/-- Concrete request for the C5 witness: a path-traversal filename. -/
def fileW5 : UploadReq := { filename := "../../etc/passwd", content_type := "text/plain" }

/-- Concrete caller for the C5 witness. -/
def userW5 : User := { id := "u5", role := "user" }

/-- Witness for C5 at concrete environments with distinct fresh identifiers. -/
theorem upload_key_and_sanitization_witness :
    (upload_file uploadEnvW5 [] fileW5 userW5).calls.head? =
      some (.storageUpload (uploadEnvW5.freshId ++ "_" ++ os.path.basename fileW5.filename)) ∧
    (∀ contents file_path, uploadEnvW5.storage_upload = .ok (contents, file_path) →
        uploadEnvW5.insert_exc = none →
        Files.get_file_by_id [] uploadEnvW5.freshId = none →
        ∃ r, Files.get_file_by_id (upload_file uploadEnvW5 [] fileW5 userW5).db
            uploadEnvW5.freshId = some r ∧
          r.filename = os.path.basename fileW5.filename) ∧
    uploadEnvW5.freshId ++ "_" ++ os.path.basename fileW5.filename ≠
      uploadEnvW5b.freshId ++ "_" ++ os.path.basename fileW5.filename ∧
    os.path.basename "../../etc/passwd" = "passwd" :=
  upload_key_and_sanitization uploadEnvW5 uploadEnvW5b [] fileW5 userW5 (by decide)

/-! Claim C6. -/

/-- C6: on an authorized DELETE of an existing record, the handler deletes the
registry record first and only then attempts blob deletion (call order in the
trace); a falsy registry result yields 400 with no blob call and the registry
unchanged; a blob exception after a successful registry delete yields 400 even
though the record is already gone from the registry; when both succeed the
handler returns the success message. -/
theorem delete_file_by_id_spec (env : DeleteEnv) (db : RegistryDB) (id : String)
    (user : User) (file : FileModel)
    (hf : Files.get_file_by_id db id = some file)
    (ha : (file.user_id == user.id || user.role == "admin") = true) :
    (env.registry_result = false →
      (delete_file_by_id env db id user).resp =
        .error ⟨HTTP_400_BAD_REQUEST, ERROR_MESSAGES.DEFAULT "Error deleting file"⟩ ∧
      (delete_file_by_id env db id user).calls = [.registryDelete id] ∧
      (delete_file_by_id env db id user).db = db) ∧
    (env.registry_result = true →
      (delete_file_by_id env db id user).calls =
        [.registryDelete id, .storageDelete file.filename] ∧
      (delete_file_by_id env db id user).db = Files.delete_record db id ∧
      Files.get_file_by_id (delete_file_by_id env db id user).db id = none ∧
      (∀ e, env.storage_delete = .error e →
        (delete_file_by_id env db id user).resp =
          .error ⟨HTTP_400_BAD_REQUEST, ERROR_MESSAGES.DEFAULT "Error deleting files"⟩) ∧
      (env.storage_delete = .ok () →
        (delete_file_by_id env db id user).resp = .ok "File deleted successfully")) := by
  have ha' : file.user_id = user.id ∨ user.role = "admin" := by
    rcases Bool.or_eq_true_iff.mp ha with h | h
    · exact Or.inl (by simpa using h)
    · exact Or.inr (by simpa using h)
  constructor
  · intro hr
    refine ⟨?_, ?_, ?_⟩ <;> simp [delete_file_by_id, hf, ha', hr]
  · intro hr
    refine ⟨?_, ?_, ?_, ?_, ?_⟩
    · cases hsd : env.storage_delete <;> simp [delete_file_by_id, hf, ha', hr, hsd]
    · cases hsd : env.storage_delete <;> simp [delete_file_by_id, hf, ha', hr, hsd]
    · cases hsd : env.storage_delete <;>
        simp [delete_file_by_id, hf, ha', hr, hsd, get_file_delete_none]
    · intro e hsd
      simp [delete_file_by_id, hf, ha', hr, hsd]
    · intro hsd
      simp [delete_file_by_id, hf, ha', hr, hsd]

/-- Concrete record for the C6 witness. -/
def fileW6 : FileModel :=
  { id := "f6", user_id := "carol", filename := "doc.pdf", path := "/data/uploads/f6_doc.pdf",
    meta := [("name", "doc.pdf")], data := [], content := [] }

/-- Witness for C6: the owner deletes the record with a truthy registry result
and a successful blob delete. -/
theorem delete_file_by_id_spec_witness :
    ((DeleteEnv.mk true (.ok ())).registry_result = false →
      (delete_file_by_id ⟨true, .ok ()⟩ [fileW6] "f6" ⟨"carol", "user"⟩).resp =
        .error ⟨HTTP_400_BAD_REQUEST, ERROR_MESSAGES.DEFAULT "Error deleting file"⟩ ∧
      (delete_file_by_id ⟨true, .ok ()⟩ [fileW6] "f6" ⟨"carol", "user"⟩).calls =
        [.registryDelete "f6"] ∧
      (delete_file_by_id ⟨true, .ok ()⟩ [fileW6] "f6" ⟨"carol", "user"⟩).db = [fileW6]) ∧
    ((DeleteEnv.mk true (.ok ())).registry_result = true →
      (delete_file_by_id ⟨true, .ok ()⟩ [fileW6] "f6" ⟨"carol", "user"⟩).calls =
        [.registryDelete "f6", .storageDelete fileW6.filename] ∧
      (delete_file_by_id ⟨true, .ok ()⟩ [fileW6] "f6" ⟨"carol", "user"⟩).db =
        Files.delete_record [fileW6] "f6" ∧
      Files.get_file_by_id (delete_file_by_id ⟨true, .ok ()⟩ [fileW6] "f6" ⟨"carol", "user"⟩).db
        "f6" = none ∧
      (∀ e, (DeleteEnv.mk true (.ok ())).storage_delete = .error e →
        (delete_file_by_id ⟨true, .ok ()⟩ [fileW6] "f6" ⟨"carol", "user"⟩).resp =
          .error ⟨HTTP_400_BAD_REQUEST, ERROR_MESSAGES.DEFAULT "Error deleting files"⟩) ∧
      ((DeleteEnv.mk true (.ok ())).storage_delete = .ok () →
        (delete_file_by_id ⟨true, .ok ()⟩ [fileW6] "f6" ⟨"carol", "user"⟩).resp =
          .ok "File deleted successfully")) :=
  delete_file_by_id_spec ⟨true, .ok ()⟩ [fileW6] "f6" ⟨"carol", "user"⟩ fileW6
    (by decide) (by decide)

/-! Claim C7. -/

/-- C7: on a DELETE /all request by an admin, a falsy registry bulk-delete
result yields 400 with no blob bulk-delete attempted and the registry
unchanged; a blob bulk-delete exception after a successful registry bulk-delete
yields 400 with the registry already cleared; otherwise the handler returns the
success message — for every registry state, including the empty one (zero
existing files). -/
theorem delete_all_files_spec (env : DeleteAllEnv) (db : RegistryDB) (user : User)
    (hadmin : user.role = "admin") :
    (env.registry_result = false →
      (delete_all_files env db user).resp =
        .error ⟨HTTP_400_BAD_REQUEST, ERROR_MESSAGES.DEFAULT "Error deleting files"⟩ ∧
      (delete_all_files env db user).calls = [.registryDeleteAll] ∧
      (delete_all_files env db user).db = db) ∧
    (env.registry_result = true →
      (delete_all_files env db user).calls = [.registryDeleteAll, .storageDeleteAll] ∧
      (delete_all_files env db user).db = [] ∧
      (∀ e, env.storage_delete_all = .error e →
        (delete_all_files env db user).resp =
          .error ⟨HTTP_400_BAD_REQUEST, ERROR_MESSAGES.DEFAULT "Error deleting files"⟩) ∧
      (env.storage_delete_all = .ok () →
        (delete_all_files env db user).resp = .ok "All files deleted successfully")) := by
  constructor
  · intro hr
    refine ⟨?_, ?_, ?_⟩ <;> simp [delete_all_files, hr]
  · intro hr
    refine ⟨?_, ?_, ?_, ?_⟩
    · cases hsd : env.storage_delete_all <;> simp [delete_all_files, hr, hsd]
    · cases hsd : env.storage_delete_all <;> simp [delete_all_files, hr, hsd]
    · intro e hsd
      simp [delete_all_files, hr, hsd]
    · intro hsd
      simp [delete_all_files, hr, hsd]

/-- Witness for C7: an admin clears an already-empty registry (zero existing
files) with a truthy registry result and a successful blob bulk-delete. -/
theorem delete_all_files_spec_witness :
    ((DeleteAllEnv.mk true (.ok ())).registry_result = false →
      (delete_all_files ⟨true, .ok ()⟩ [] ⟨"root", "admin"⟩).resp =
        .error ⟨HTTP_400_BAD_REQUEST, ERROR_MESSAGES.DEFAULT "Error deleting files"⟩ ∧
      (delete_all_files ⟨true, .ok ()⟩ [] ⟨"root", "admin"⟩).calls = [.registryDeleteAll] ∧
      (delete_all_files ⟨true, .ok ()⟩ [] ⟨"root", "admin"⟩).db = []) ∧
    ((DeleteAllEnv.mk true (.ok ())).registry_result = true →
      (delete_all_files ⟨true, .ok ()⟩ [] ⟨"root", "admin"⟩).calls =
        [.registryDeleteAll, .storageDeleteAll] ∧
      (delete_all_files ⟨true, .ok ()⟩ [] ⟨"root", "admin"⟩).db = [] ∧
      (∀ e, (DeleteAllEnv.mk true (.ok ())).storage_delete_all = .error e →
        (delete_all_files ⟨true, .ok ()⟩ [] ⟨"root", "admin"⟩).resp =
          .error ⟨HTTP_400_BAD_REQUEST, ERROR_MESSAGES.DEFAULT "Error deleting files"⟩) ∧
      ((DeleteAllEnv.mk true (.ok ())).storage_delete_all = .ok () →
        (delete_all_files ⟨true, .ok ()⟩ [] ⟨"root", "admin"⟩).resp =
          .ok "All files deleted successfully")) :=
  delete_all_files_spec ⟨true, .ok ()⟩ [] ⟨"root", "admin"⟩ rfl

/-! Claim C9. -/

/-- C9: on an authorized content-update request, the handler re-invokes the
Content Processor with the caller-supplied replacement content (the traced
call); if the processor fails, the failure is swallowed and the handler still
returns HTTP 200 with the content currently on the record (the stale content),
leaving the registry unchanged and never propagating the processing error. -/
theorem update_content_process_failure_returns_stale (env : UpdateEnv) (db : RegistryDB)
    (id : String) (form : ContentForm) (user : User) (file : FileModel) (e : PyExc)
    (hf : Files.get_file_by_id db id = some file)
    (ha : (file.user_id == user.id || user.role == "admin") = true)
    (hp : env.process_result = .error e) :
    (update_file_data_content_by_id env db id form user).resp =
      .ok (dictGet file.data "content" "") ∧
    respStatus (update_file_data_content_by_id env db id form user).resp = 200 ∧
    (update_file_data_content_by_id env db id form user).db = db ∧
    (update_file_data_content_by_id env db id form user).calls =
      [.processInvoke id form.content] := by
  have ha' : file.user_id = user.id ∨ user.role = "admin" := by
    rcases Bool.or_eq_true_iff.mp ha with h | h
    · exact Or.inl (by simpa using h)
    · exact Or.inr (by simpa using h)
  refine ⟨?_, ?_, ?_, ?_⟩ <;>
    simp [update_file_data_content_by_id, hf, ha', hp, respStatus]

/-- Concrete record for the C9 witness, holding some already-derived content. -/
def fileW9 : FileModel :=
  { id := "f9", user_id := "dana", filename := "notes.md", path := "/data/uploads/f9_notes.md",
    meta := [("name", "notes.md")], data := [("content", "old extracted text")], content := [] }

/-- Concrete failing-processor environment for the C9 witness. -/
def uenvW9 : UpdateEnv := { process_result := .error { msg := "extraction failed" },
                            derivedData := [] }

/-- Witness for C9: the owner updates the content, the processor fails, and the
handler returns 200 with the stale content. -/
theorem update_content_process_failure_returns_stale_witness :
    (update_file_data_content_by_id uenvW9 [fileW9] "f9" ⟨"replacement"⟩ ⟨"dana", "user"⟩).resp =
      .ok (dictGet fileW9.data "content" "") ∧
    respStatus (update_file_data_content_by_id uenvW9 [fileW9] "f9" ⟨"replacement"⟩
      ⟨"dana", "user"⟩).resp = 200 ∧
    (update_file_data_content_by_id uenvW9 [fileW9] "f9" ⟨"replacement"⟩
      ⟨"dana", "user"⟩).db = [fileW9] ∧
    (update_file_data_content_by_id uenvW9 [fileW9] "f9" ⟨"replacement"⟩
      ⟨"dana", "user"⟩).calls = [.processInvoke "f9" (ContentForm.mk "replacement").content] :=
  update_content_process_failure_returns_stale uenvW9 [fileW9] "f9" ⟨"replacement"⟩
    ⟨"dana", "user"⟩ fileW9 { msg := "extraction failed" } (by decide) (by decide) rfl

/-! Claim C1. -/

/-- Concrete input refuting C1 as stated: the processor fails with an exception
whose message is the empty string (Python `str(Exception())`). -/
def uploadEnvX1 : UploadEnv :=
  { freshId := "f1", storage_upload := .ok ("data", "/data/uploads/f1_a.txt"),
    insert_exc := none, process_result := .error { msg := "" }, derivedData := [] }

/-- C1 counterexample: with the blob write and insert succeeding and the
Content Processor failing with an empty exception message, `upload_file`
returns HTTP 200 whose payload carries the error annotation `some ""` — the
`error` field is attached but EMPTY, refuting the claim that the attached
`error` field is always non-empty. -/
theorem upload_process_failure_error_can_be_empty :
    respStatus (upload_file uploadEnvX1 [] ⟨"a.txt", "text/plain"⟩ ⟨"u1", "user"⟩).resp = 200 ∧
    ((upload_file uploadEnvX1 [] ⟨"a.txt", "text/plain"⟩ ⟨"u1", "user"⟩).resp.toOption.map
      FileModelResponse.error) = some (some "") := by
  constructor <;> rfl

/-- C1 (amended): when the blob write and the record insert succeed and the
Content Processor invocation fails, `upload_file` still returns the record with
HTTP status 200 and an `error` field attached to the response payload holding
the failure's message (so non-empty exactly when that message is), while the
record as persisted in the Metadata Registry is exactly the inserted
`FileModel`, which carries no error field at all. -/
theorem upload_process_failure_annotates_response (env : UploadEnv) (db : RegistryDB)
    (file : UploadReq) (user : User) (contents file_path : String) (pe : PyExc)
    (hs : env.storage_upload = .ok (contents, file_path))
    (hi : env.insert_exc = none)
    (hp : env.process_result = .error pe) :
    (upload_file env db file user).resp =
      .ok ((Files.mk_record user.id (uploadFormData env file contents file_path)).toResponse
        (some (match pe.detail with | some d => d | none => pe.msg))) ∧
    respStatus (upload_file env db file user).resp = 200 ∧
    (upload_file env db file user).db =
      db ++ [Files.mk_record user.id (uploadFormData env file contents file_path)] := by
  refine ⟨?_, ?_, ?_⟩ <;>
    simp [upload_file, hs, hi, hp, Files.insert_new_file, respStatus]

/-- Concrete environment for the C1 witness: the processor fails with a
non-empty message. -/
def uploadEnvW1 : UploadEnv :=
  { freshId := "c1w", storage_upload := .ok ("bytes", "/data/uploads/c1w_b.txt"),
    insert_exc := none, process_result := .error { msg := "processing crashed" },
    derivedData := [] }

/-- Concrete request for the C1 witness. -/
def fileReqW1 : UploadReq := { filename := "b.txt", content_type := "text/plain" }

/-- Witness for the amended C1 at a concrete failing-processor environment. -/
theorem upload_process_failure_annotates_response_witness :
    (upload_file uploadEnvW1 [] fileReqW1 ⟨"u1", "user"⟩).resp =
      .ok ((Files.mk_record "u1" (uploadFormData uploadEnvW1 fileReqW1 "bytes"
        "/data/uploads/c1w_b.txt")).toResponse (some "processing crashed")) ∧
    respStatus (upload_file uploadEnvW1 [] fileReqW1 ⟨"u1", "user"⟩).resp = 200 ∧
    (upload_file uploadEnvW1 [] fileReqW1 ⟨"u1", "user"⟩).db =
      [Files.mk_record "u1" (uploadFormData uploadEnvW1 fileReqW1 "bytes"
        "/data/uploads/c1w_b.txt")] :=
  upload_process_failure_annotates_response uploadEnvW1 [] fileReqW1 ⟨"u1", "user"⟩
    "bytes" "/data/uploads/c1w_b.txt" { msg := "processing crashed" } rfl rfl rfl

/-! Claim C2. -/

/-- Concrete failing-blob-write environment for C2. -/
def uploadEnvX2s : UploadEnv :=
  { freshId := "f2", storage_upload := .error { msg := "disk full" },
    insert_exc := none, process_result := .ok (), derivedData := [] }

/-- Concrete failing-insert environment for C2. -/
def uploadEnvX2i : UploadEnv :=
  { freshId := "f2", storage_upload := .ok ("bytes", "/data/uploads/f2_a.txt"),
    insert_exc := some { msg := "db down" }, process_result := .ok (), derivedData := [] }

/-- C2 evaluated at its failing inputs: when the blob write fails, the
handler's own `HTTPException(500)` (files.py line 85) is caught by the
catch-all `except Exception` at line 155 and re-raised as 400, so the response
status is 400 — NOT the 500-class status the claim (and lines 85-88 themselves)
intend; no record is created and the registry insert is never attempted.
A failing insert is likewise converted from 500 to 400 (lines 112-115 vs 171),
with no record created. -/
theorem upload_storage_or_insert_failure_yields_400_not_500 :
    respStatus (upload_file uploadEnvX2s [] ⟨"a.txt", "text/plain"⟩ ⟨"u2", "user"⟩).resp =
      HTTP_400_BAD_REQUEST ∧
    (upload_file uploadEnvX2s [] ⟨"a.txt", "text/plain"⟩ ⟨"u2", "user"⟩).db = [] ∧
    (upload_file uploadEnvX2s [] ⟨"a.txt", "text/plain"⟩ ⟨"u2", "user"⟩).calls =
      [.storageUpload "f2_a.txt"] ∧
    respStatus (upload_file uploadEnvX2i [] ⟨"a.txt", "text/plain"⟩ ⟨"u2", "user"⟩).resp =
      HTTP_400_BAD_REQUEST ∧
    (upload_file uploadEnvX2i [] ⟨"a.txt", "text/plain"⟩ ⟨"u2", "user"⟩).db = [] :=
  ⟨rfl, rfl, rfl, rfl, rfl⟩

/-! Claim C4. -/

/-- Concrete record for C4's failing input. -/
def fileX4 : FileModel :=
  { id := "f4", user_id := "erin", filename := "r.txt", path := "/data/uploads/f4_r.txt",
    meta := [("name", "r.txt")], data := [], content := [] }

/-- C4 evaluated at its failing input: for an authorized request whose record
exists, when Blob Storage resolves the path but the resolved path is NOT an
existing local file, the handler's own `HTTPException(404)` (files.py line 305)
is caught by the `except Exception` at line 309 and re-raised as 400 (line
312) — the response is 400, not the 404 the claim (and line 305 itself)
intend. When the resolved path IS an existing file, the handler does return a
`FileResponse` for it with an attachment Content-Disposition header, as the
claim's positive half states. -/
theorem get_file_content_not_a_file_yields_400_not_404 :
    get_file_content_by_id ⟨.ok "/cache/f4_r.txt", false⟩ [fileX4] "f4" ⟨"erin", "user"⟩ =
      .error ⟨HTTP_400_BAD_REQUEST, ERROR_MESSAGES.DEFAULT "Error getting file content"⟩ ∧
    respStatus (get_file_content_by_id ⟨.ok "/cache/f4_r.txt", false⟩ [fileX4] "f4"
      ⟨"erin", "user"⟩) ≠ HTTP_404_NOT_FOUND ∧
    get_file_content_by_id ⟨.ok "/cache/f4_r.txt", true⟩ [fileX4] "f4" ⟨"erin", "user"⟩ =
      .ok (.fileResponse "/cache/f4_r.txt"
        [("Content-Disposition", "attachment; filename=\"r.txt\"")]) := by
  refine ⟨rfl, by decide, rfl⟩

/-! Claim C10. -/

/-- C10: for a record created by `upload_file`, the storage key the blob was
uploaded under is `freshId ++ "_" ++ sanitized-name` (first traced call), while
`delete_file_by_id` passes the record's `filename` field — the sanitized name
without the identifier prefix — to `Storage.delete_file` (files.py line 409);
these two names are never equal for any (in particular any non-empty)
identifier. -/
theorem delete_uses_unprefixed_filename (env : UploadEnv) (denv : DeleteEnv)
    (db : RegistryDB) (file : UploadReq) (user : User) (contents file_path : String)
    (hid : env.freshId ≠ "")
    (hs : env.storage_upload = .ok (contents, file_path))
    (hi : env.insert_exc = none)
    (hfresh : Files.get_file_by_id db env.freshId = none)
    (hr : denv.registry_result = true) :
    (upload_file env db file user).calls.head? =
      some (.storageUpload (env.freshId ++ "_" ++ os.path.basename file.filename)) ∧
    ∃ r, Files.get_file_by_id (upload_file env db file user).db env.freshId = some r ∧
      r.filename = os.path.basename file.filename ∧
      (delete_file_by_id denv (upload_file env db file user).db env.freshId user).calls =
        [.registryDelete env.freshId, .storageDelete r.filename] ∧
      r.filename ≠ env.freshId ++ "_" ++ os.path.basename file.filename := by
  constructor
  · simp only [upload_file]
    repeat' split
    all_goals rfl
  · cases hp : env.process_result with
    | error e =>
      have hdb : (upload_file env db file user).db =
          db ++ [Files.mk_record user.id (uploadFormData env file contents file_path)] := by
        simp only [upload_file, hs, hi, hp, Files.insert_new_file]
      have hget : Files.get_file_by_id
          (db ++ [Files.mk_record user.id (uploadFormData env file contents file_path)])
          env.freshId =
          some (Files.mk_record user.id (uploadFormData env file contents file_path)) :=
        get_file_append_single db _ env.freshId hfresh rfl
      refine ⟨Files.mk_record user.id (uploadFormData env file contents file_path),
        ?_, rfl, ?_, ?_⟩
      · rw [hdb]
        exact hget
      · rw [hdb]
        simp only [delete_file_by_id, hget]
        cases hsd : denv.storage_delete <;>
          simp [hr, hsd, Files.mk_record, uploadFormData]
      · exact ne_key_of_self env.freshId (os.path.basename file.filename)
    | ok u =>
      have hmap : db.map (fun f => if f.id == env.freshId
          then processApply env.derivedData f else f) = db :=
        map_guard_eq_of_not_found db env.freshId _ hfresh
      have hget : Files.get_file_by_id
          ((db ++ [Files.mk_record user.id (uploadFormData env file contents file_path)]).map
            (fun f => if f.id == env.freshId then processApply env.derivedData f else f))
          env.freshId =
          some (processApply env.derivedData
            (Files.mk_record user.id (uploadFormData env file contents file_path))) := by
        rw [List.map_append, hmap]
        simp only [List.map_cons, List.map_nil]
        rw [if_pos (show ((Files.mk_record user.id
          (uploadFormData env file contents file_path)).id == env.freshId) = true by
            simp [Files.mk_record, uploadFormData])]
        exact get_file_append_single db _ env.freshId hfresh rfl
      have hdb : (upload_file env db file user).db =
          (db ++ [Files.mk_record user.id (uploadFormData env file contents file_path)]).map
            (fun f => if f.id == env.freshId then processApply env.derivedData f else f) := by
        simp only [upload_file, hs, hi, hp, Files.insert_new_file]
        rw [hget]
      refine ⟨processApply env.derivedData
        (Files.mk_record user.id (uploadFormData env file contents file_path)),
        ?_, rfl, ?_, ?_⟩
      · rw [hdb]
        exact hget
      · rw [hdb]
        simp only [delete_file_by_id, hget]
        cases hsd : denv.storage_delete <;>
          simp [hr, hsd, Files.mk_record, uploadFormData, processApply]
      · exact ne_key_of_self env.freshId (os.path.basename file.filename)

/-- Concrete upload environment for the C10 witness. -/
def uploadEnvW10 : UploadEnv :=
  { freshId := "33333333-cccc", storage_upload := .ok ("blob", "/data/uploads/k10"),
    insert_exc := none, process_result := .ok (), derivedData := [("content", "t")] }

/-- Concrete request for the C10 witness. -/
def fileReqW10 : UploadReq := { filename := "report.pdf", content_type := "application/pdf" }

/-- Witness for C10 at a concrete upload followed by the owner's delete. -/
theorem delete_uses_unprefixed_filename_witness :
    (upload_file uploadEnvW10 [] fileReqW10 ⟨"u10", "user"⟩).calls.head? =
      some (.storageUpload (uploadEnvW10.freshId ++ "_" ++
        os.path.basename fileReqW10.filename)) ∧
    ∃ r, Files.get_file_by_id (upload_file uploadEnvW10 [] fileReqW10 ⟨"u10", "user"⟩).db
        uploadEnvW10.freshId = some r ∧
      r.filename = os.path.basename fileReqW10.filename ∧
      (delete_file_by_id ⟨true, .ok ()⟩ (upload_file uploadEnvW10 [] fileReqW10
        ⟨"u10", "user"⟩).db uploadEnvW10.freshId ⟨"u10", "user"⟩).calls =
        [.registryDelete uploadEnvW10.freshId, .storageDelete r.filename] ∧
      r.filename ≠ uploadEnvW10.freshId ++ "_" ++ os.path.basename fileReqW10.filename :=
  delete_uses_unprefixed_filename uploadEnvW10 ⟨true, .ok ()⟩ [] fileReqW10 ⟨"u10", "user"⟩
    "blob" "/data/uploads/k10" (by decide) rfl rfl rfl rfl
